import Mathlib

/-!
Verification of the `wware/portfolio` backend against its specification.

The repository has two source files:
* `src/api/main.py` — a FastAPI app exposing an in-memory item store
  (`GET /api/items`, `POST /api/items`) over a module-level list `items_db`;
* `src/api/use_email.py` — an OTP helper (`generate_otp_secret`,
  `verify_otp` via the `pyotp` TOTP implementation) and an SMTP email
  sender (`send_otp_email`).

This file is a shallow embedding of those behaviours:
* the item store becomes explicit state passing over `List Item`;
* the pyotp TOTP stack (`base64.b32decode`, HMAC-SHA1, RFC-4226 dynamic
  truncation, 6-digit formatting, 30-second time steps, `valid_window = 0`)
  is embedded as executable functions over byte lists (`List Nat`, each
  element < 256) and `Nat` words with explicit `% 2^32` truncation;
* Python exceptions become `Option`/`Except` results;
* randomness and the SMTP transport become oracle parameters.
-/

set_option maxRecDepth 100000

namespace Portfolio

/-! ## Item store (`src/api/main.py`)

`class Item(BaseModel): name: str; value: int` — a record of a string name
and an integer value; no other constraint is declared on the fields. -/

/-- The `Item` pydantic model of `main.py`: `name: str`, `value: int`. -/
structure Item where
  name : String
  value : Int
deriving DecidableEq

/-- JSON values as they can appear in a request-body field.  (Floating
point numbers and composite values are irrelevant to the claims handled
here and are omitted: only the scalar shapes matter to validation.) -/
inductive Json where
  | null
  | bool (b : Bool)
  | int (n : Int)
  | str (s : String)
deriving DecidableEq

/-- Whether a JSON value is an integer. -/
def Json.isInt : Json → Bool
  | .int _ => true
  | _ => false

/-- Modelled from the spec: the request-body validation FastAPI/pydantic
performs against the declared schema `name: str, value: int` before
`create_item` runs ("malformed input (missing/wrong-typed field) fails with
a validation error before reaching the store").  The validation layer
itself is framework code, absent from `src/`; it is modelled as a strict
type check: the `name` field must be a JSON string and the `value` field a
JSON integer, exactly as the schema in `main.py` declares, and no other
constraint is applied. -/
def parse_item (name value : Json) : Option Item :=
  match name, value with
  | .str s, .int n => some ⟨s, n⟩
  | _, _ => none

/-- The seed store `items_db` of `main.py`. -/
def items_db : List Item :=
  [⟨"Item 1", 10⟩, ⟨"Item 2", 20⟩]

/-- `get_items` handler: returns the whole store, in order. -/
def get_items (db : List Item) : List Item := db

/-- The JSON body `{"message": ..., "item": ...}` returned by `create_item`. -/
structure CreateResponse where
  message : String
  item : Item
deriving DecidableEq

/-- `create_item` handler body: `items_db.append(item.model_dump())` then
`return {"message": "Item created", "item": item}`.  The mutation of the
module-level list becomes explicit state passing: the result pairs the new
store with the response. -/
def create_item (db : List Item) (item : Item) : List Item × CreateResponse :=
  (db ++ [item], ⟨"Item created", item⟩)

/-- The full `POST /api/items` endpoint on a raw JSON body: validation of
the two fields (`parse_item`), then the `create_item` handler.  A failed
validation returns `none` (the 422 response) and the handler never runs,
so the store comes back unchanged. -/
def create_item_endpoint (db : List Item) (name value : Json) :
    List Item × Option CreateResponse :=
  match parse_item name value with
  | none => (db, none)
  | some item =>
    let r := create_item db item
    (r.1, some r.2)

/-! ## SHA-1 and HMAC-SHA1

`verify_otp` in `src/api/use_email.py` delegates to `pyotp.TOTP`, whose
code derivation is RFC-4226 HOTP over HMAC-SHA1.  The hash is embedded
here over byte lists (`List Nat`, elements < 256), with 32-bit words as
`Nat` truncated explicitly by `% 2^32`. -/

/-- Truncation of a natural number to a 32-bit word. -/
def w32 (n : Nat) : Nat := n % 4294967296

/-- Left rotation by `s` bits of a 32-bit word `n`. -/
def rotl (s n : Nat) : Nat := w32 (n <<< s) ||| n >>> (32 - s)

/-- Big-endian byte string of `n`, `k` bytes long (`n < 2^(8*k)`). -/
def natToBytesBE : Nat → Nat → List Nat
  | 0, _ => []
  | k + 1, n => natToBytesBE k (n / 256) ++ [n % 256]

/-- Packs bytes into 32-bit big-endian words, four bytes per word. -/
def bytesToWords : List Nat → List Nat
  | b0 :: b1 :: b2 :: b3 :: rest =>
    (b0 <<< 24 ||| b1 <<< 16 ||| b2 <<< 8 ||| b3) :: bytesToWords rest
  | _ => []

/-- SHA-1 message-schedule extension: appends `k` further words, each
`rotl 1` of the XOR of the words 3, 8, 14 and 16 places back. -/
def sha1ExtendAux (w : List Nat) : Nat → List Nat
  | 0 => w
  | k + 1 =>
    let v := sha1ExtendAux w k
    v ++ [rotl 1 (v.getD (v.length - 3) 0 ^^^ v.getD (v.length - 8) 0 ^^^
                  v.getD (v.length - 14) 0 ^^^ v.getD (v.length - 16) 0)]

/-- Extends the 16 words of a block to the 80 words of the schedule. -/
def sha1Extend (w : List Nat) : List Nat := sha1ExtendAux w 64

/-- SHA-1 round function, by round index `i`. -/
def sha1F (i b c d : Nat) : Nat :=
  if i < 20 then (b &&& c) ||| ((b ^^^ 4294967295) &&& d)
  else if i < 40 then b ^^^ c ^^^ d
  else if i < 60 then (b &&& c) ||| (b &&& d) ||| (c &&& d)
  else b ^^^ c ^^^ d

/-- SHA-1 round constant, by round index `i`. -/
def sha1K (i : Nat) : Nat :=
  if i < 20 then 1518500249
  else if i < 40 then 1859775393
  else if i < 60 then 2400959708
  else 3395469782

/-- Runs the 80 SHA-1 rounds over the schedule (paired with its round
index) on the five-word working state. -/
def sha1Rounds : List (Nat × Nat) → Nat × Nat × Nat × Nat × Nat →
    Nat × Nat × Nat × Nat × Nat
  | [], h => h
  | (i, wi) :: rest, (a, b, c, d, e) =>
    sha1Rounds rest
      (w32 (rotl 5 a + sha1F i b c d + e + sha1K i + wi), a, rotl 30 b, c, d)

/-- Compresses one 64-byte block into the running five-word state. -/
def sha1Block (h : Nat × Nat × Nat × Nat × Nat) (block : List Nat) :
    Nat × Nat × Nat × Nat × Nat :=
  let w := sha1Extend (bytesToWords block)
  let (h0, h1, h2, h3, h4) := h
  let (a, b, c, d, e) := sha1Rounds ((List.range 80).zip w) (h0, h1, h2, h3, h4)
  (w32 (h0 + a), w32 (h1 + b), w32 (h2 + c), w32 (h3 + d), w32 (h4 + e))

/-- Folds `sha1Block` over `k` consecutive 64-byte blocks. -/
def sha1Blocks : Nat → List Nat → Nat × Nat × Nat × Nat × Nat →
    Nat × Nat × Nat × Nat × Nat
  | 0, _, h => h
  | k + 1, bytes, h => sha1Blocks k (bytes.drop 64) (sha1Block h (bytes.take 64))

/-- Merkle–Damgård padding: a `0x80` byte, zeros to 56 mod 64, then the
bit length as an 8-byte big-endian integer. -/
def sha1Pad (msg : List Nat) : List Nat :=
  msg ++ [128] ++ List.replicate ((119 - msg.length % 64) % 64) 0 ++
    natToBytesBE 8 (msg.length * 8)

/-- SHA-1 digest of a byte string, as 20 bytes. -/
def sha1 (msg : List Nat) : List Nat :=
  let padded := sha1Pad msg
  let (h0, h1, h2, h3, h4) :=
    sha1Blocks (padded.length / 64) padded
      (1732584193, 4023233417, 2562383102, 271733878, 3285377520)
  natToBytesBE 4 h0 ++ natToBytesBE 4 h1 ++ natToBytesBE 4 h2 ++
    natToBytesBE 4 h3 ++ natToBytesBE 4 h4

/-- HMAC-SHA1 (RFC 2104): hashes the key down if longer than the 64-byte
block, zero-pads it, and nests the two keyed hashes. -/
def hmacSha1 (key msg : List Nat) : List Nat :=
  let k0 := if 64 < key.length then sha1 key else key
  let kp := k0 ++ List.replicate (64 - k0.length) 0
  sha1 (kp.map (fun b => b ^^^ 92) ++ sha1 (kp.map (fun b => b ^^^ 54) ++ msg))

example : sha1 [97, 98, 99] =
    [169, 153, 62, 54, 71, 6, 129, 106, 186, 62, 37, 113, 120, 80, 194,
     108, 156, 208, 216, 157] := by decide

/-! ## Base32 decoding

`pyotp.TOTP.byte_secret` pads the secret with `=` to a multiple of eight
characters and calls `base64.b32decode(secret, casefold=True)`.  The
decoder is embedded after CPython's `base64.b32decode`: reject a length
not divisible by 8, upper-case (casefold), strip trailing `=`, decode
five bits per character in eight-character quanta to five bytes each, then
fix the final partial quantum according to the padding length.  A Python
`binascii.Error` becomes `none`. -/

/-- Five-bit value of one base32 character (RFC 4648 alphabet
`A`–`Z`, `2`–`7`); `none` for anything else, `=` included. -/
def b32Val (c : Char) : Option Nat :=
  if 'A' ≤ c ∧ c ≤ 'Z' then some (c.toNat - 65)
  else if '2' ≤ c ∧ c ≤ '7' then some (c.toNat - 24)
  else none

/-- Accumulates a quantum of base32 characters into an integer, five bits
per character (`acc = 32*acc + val`), failing on a non-alphabet character. -/
def b32Acc (cs : List Char) : Option Nat :=
  cs.foldl (fun acc c => acc.bind (fun a => (b32Val c).map (fun v => 32 * a + v)))
    (some 0)

/-- Splits a character list into eight-character quanta (the final one may
be shorter).  The first argument is fuel, at least the list length. -/
def b32Quanta : Nat → List Char → List (List Char)
  | 0, _ => []
  | _, [] => []
  | k + 1, c :: cs => (c :: cs).take 8 :: b32Quanta k ((c :: cs).drop 8)

/-- Embeds CPython's `base64.b32decode` with `casefold=True`, as called by
`pyotp`: length must be a multiple of 8; trailing `=` padding must number
0, 1, 3, 4 or 6; each eight-character quantum yields five bytes; the bytes
of the final partial quantum are recomputed from its accumulator shifted
by five bits per padding character, keeping `(43 - 5*pad) / 8` bytes. -/
def b32decode (s : String) : Option (List Nat) :=
  let cs := s.toList.map Char.toUpper
  if cs.length % 8 ≠ 0 then none
  else
    let stripped := (cs.reverse.dropWhile (fun c => c = '=')).reverse
    let pad := cs.length - stripped.length
    if ¬(pad = 0 ∨ pad = 1 ∨ pad = 3 ∨ pad = 4 ∨ pad = 6) then none
    else
      ((b32Quanta cs.length stripped).mapM b32Acc).map (fun accs =>
        let decoded := accs.foldl (fun bs a => bs ++ natToBytesBE 5 a) []
        if pad = 0 ∨ decoded = [] then decoded
        else
          let last := accs.getLastD 0 <<< (5 * pad)
          decoded.take (decoded.length - 5) ++
            (natToBytesBE 5 last).take ((43 - 5 * pad) / 8))

/-- Embeds `pyotp.TOTP.byte_secret`: pad the secret with `=` to a multiple
of eight characters, then base32-decode it (casefolded).  Decoding raises
`binascii.Error` in Python on a malformed secret; that is `none` here. -/
def byte_secret (secret : String) : Option (List Nat) :=
  let missing := secret.length % 8
  b32decode (if missing ≠ 0 then
    secret ++ String.mk (List.replicate (8 - missing) '=') else secret)

example : byte_secret "ABCDEFGHIJKLMNOPQRSTUVWXYZ234567" =
    some [0, 68, 50, 20, 199, 66, 84, 182, 53, 207, 132, 101, 58, 86, 215,
          198, 117, 190, 119, 223] := by decide

/-! ## HOTP / TOTP (`pyotp.TOTP` with its defaults, as used by
`src/api/use_email.py`: SHA-1, 6 digits, 30-second interval, and
`valid_window = 0` in `verify`) -/

/-- Embeds `pyotp.utils.build_uri`-independent helper
`pyotp.otp.OTP.int_to_bytestring`: the counter as an 8-byte big-endian
byte string (counters here are below `2^64`). -/
def int_to_bytestring (i : Nat) : List Nat := natToBytesBE 8 i

/-- Decimal digit character of `n % 10`. -/
def digitChar (n : Nat) : Char := Char.ofNat (48 + n % 10)

/-- Embeds pyotp's `str(10_000_000_000 + (code % 10**6))[-6:]`: the code
value as a six-character decimal string, zero-padded on the left. -/
def sixDigits (n : Nat) : String :=
  String.mk [digitChar (n / 100000), digitChar (n / 10000), digitChar (n / 1000),
             digitChar (n / 100), digitChar (n / 10), digitChar n]

/-- Embeds `pyotp.otp.OTP.generate_otp` at the TOTP defaults (SHA-1,
6 digits): HMAC-SHA1 of the 8-byte counter under the decoded secret,
RFC-4226 dynamic truncation by the low nibble of the last digest byte,
then the low 31 bits reduced mod `10^6` and zero-padded to six digits. -/
def generate_otp (key : List Nat) (input : Nat) : String :=
  let hm := hmacSha1 key (int_to_bytestring input)
  let offset := hm.getD 19 0 &&& 15
  sixDigits ((((hm.getD offset 0 &&& 127) <<< 24) ||| (hm.getD (offset + 1) 0 <<< 16) |||
      (hm.getD (offset + 2) 0 <<< 8) ||| hm.getD (offset + 3) 0) % 1000000)

/-- Embeds `pyotp.TOTP.timecode` for a Unix timestamp: the counter is the
timestamp divided by the interval (30 seconds), rounded down. -/
def timecode (t : Nat) : Nat := t / 30

/-- Embeds `pyotp.TOTP.at` for secret `secret` at Unix time `t`: the
six-digit code of the current 30-second step.  `none` models the
`binascii.Error` raised on a malformed base32 secret. -/
def totp_at (secret : String) (t : Nat) : Option String :=
  (byte_secret secret).map (fun key => generate_otp key (timecode t))

/-- Embeds `pyotp.utils.strings_equal` restricted to NFKC-fixed
arguments: equality of the two strings.  The Python function first
applies NFKC normalisation to both strings and then compares them through
the constant-time `hmac.compare_digest`; on strings that NFKC fixes —
all ASCII strings, so in particular the six-digit codes, and the empty
string — that composite is exactly string equality, which is what is
modelled.  The model is NOT faithful at tokens NFKC rewrites (for
example fullwidth digits, which the program would accept against the
matching code): no theorem below instantiates the comparison at such a
token — every statement compares a computed code or the empty string
against a computed code. -/
def strings_equal (a b : String) : Bool := a == b

/-- Embeds `verify_otp` of `src/api/use_email.py`: `pyotp.TOTP(secret)`
`.verify(token)` with the default `valid_window = 0`, which compares the
submitted token against the code of the current time step only.  The
wall-clock time read by `verify` is the explicit parameter `t` (Unix
seconds); a malformed base32 secret, which raises in Python, is `none`.
The comparison inherits the scope of `strings_equal`: it is faithful at
NFKC-fixed tokens (all the theorems below instantiate it at a computed
code or at the empty string), not at tokens NFKC rewrites. -/
def verify_otp (otp_secret token : String) (t : Nat) : Option Bool :=
  (byte_secret otp_secret).map (fun key =>
    strings_equal token (generate_otp key (timecode t)))

/-! ## Secret generation (`generate_otp_secret` in `src/api/use_email.py`)

`pyotp.random_base32()` draws, for each of 32 positions, one character of
the base32 alphabet via `secrets.choice`.  The cryptographically secure
random source is modelled as an oracle `pick` giving the chosen alphabet
index for each position. -/

/-- The RFC 4648 base32 alphabet pyotp draws secret characters from. -/
def base32Alphabet : List Char :=
  ['A', 'B', 'C', 'D', 'E', 'F', 'G', 'H', 'I', 'J', 'K', 'L', 'M', 'N',
   'O', 'P', 'Q', 'R', 'S', 'T', 'U', 'V', 'W', 'X', 'Y', 'Z', '2', '3',
   '4', '5', '6', '7']

/-- Embeds `pyotp.random_base32` at its default length 32: character `i`
of the result is the alphabet character chosen by the random oracle
`pick` at position `i` (`secrets.choice(chars)` in the source). -/
def random_base32 (pick : Nat → Fin 32) (length : Nat) : String :=
  String.mk ((List.range length).map (fun i => base32Alphabet.getD (pick i) 'A'))

/-- Embeds `generate_otp_secret` of `src/api/use_email.py`:
`pyotp.random_base32()`, i.e. 32 alphabet characters drawn from the
random oracle. -/
def generate_otp_secret (pick : Nat → Fin 32) : String :=
  random_base32 pick 32

example : generate_otp [0, 68, 50, 20, 199, 66, 84, 182, 53, 207, 132, 101,
    58, 86, 215, 198, 117, 190, 119, 223] 0 = "081962" := by decide

/-! ## Email dispatch (`send_otp_email` in `src/api/use_email.py`)

The function builds an `EmailMessage` and then performs, in order:
`smtplib.SMTP('smtp.yourserver.com', 587)` (which connects),
`server.starttls()`, `server.login("your_email@example.com",
"your_password")`, `server.send_message(msg)`, `server.quit()`.  There is
no `try`/`except`: any `smtplib` exception propagates to the caller.  The
SMTP session is modelled as an oracle giving each step's outcome; a raised
exception is `Except.error`. -/

/-- The `smtplib` exceptions a step of the session can raise. -/
inductive SmtpError where
  | connectError
  | heloError
  | notSupportedError
  | authenticationError
  | recipientsRefused
  | senderRefused
  | dataError
  | serverDisconnected
deriving DecidableEq

/-- The `email.message.EmailMessage` built by `send_otp_email`: payload
(`set_content`), `Subject`, `From` and `To` headers. -/
structure EmailMessage where
  content : String
  subject : String
  headerFrom : String
  headerTo : String
deriving DecidableEq

/-- Outcomes of the five `smtplib` calls `send_otp_email` makes, as an
oracle for one session: constructing `SMTP(host, port)` (which connects),
`starttls`, `login` (a function of the credentials), `send_message` (a
function of the message) and `quit`. -/
structure SmtpSession where
  connect : Except SmtpError Unit
  starttls : Except SmtpError Unit
  login : String → String → Except SmtpError Unit
  send_message : EmailMessage → Except SmtpError Unit
  quit : Except SmtpError Unit

/-- The message `send_otp_email` composes for recipient `email` and code
`otp`. -/
def otp_message (email otp : String) : EmailMessage :=
  { content := "Your OTP code is: " ++ otp
    subject := "Your Authentication Code"
    headerFrom := "noreply@yourapp.com"
    headerTo := email }

/-- Embeds `send_otp_email` of `src/api/use_email.py` over an SMTP session
oracle: compose the message, connect, `starttls`, `login` with the
hard-coded credentials, `send_message`, `quit`.  Python's `None` return is
`Except.ok ()`; with no exception handler in the source, the first step
that raises aborts the rest and its error is the caller's result. -/
def send_otp_email (server : SmtpSession) (email otp : String) :
    Except SmtpError Unit := do
  let msg := otp_message email otp
  server.connect
  server.starttls
  server.login "your_email@example.com" "your_password"
  server.send_message msg
  server.quit

/-! ## Sample inputs used by concrete instantiations -/

/-- A sample 32-character secret (the base32 alphabet itself). -/
def sampleSecret : String := "ABCDEFGHIJKLMNOPQRSTUVWXYZ234567"

/-- The 20-byte base32 decoding of `sampleSecret`. -/
def sampleKey : List Nat :=
  [0, 68, 50, 20, 199, 66, 84, 182, 53, 207, 132, 101, 58, 86, 215, 198,
   117, 190, 119, 223]

/-! ## Theorems for the claims -/

/-- C2: for every store state and every valid item `i`, `listItems()`
after `createItem(i)` has `i` as its last element and is exactly one
longer than before the call. -/
theorem C2_create_item_appends (db : List Item) (i : Item) :
    (get_items (create_item db i).1).getLast? = some i ∧
    (get_items (create_item db i).1).length = (get_items db).length + 1 := by
  simp [get_items, create_item]

/-- C3: from the seed store, `POST /api/items` with body
`{"name": "Widget", "value": 5}` returns the message `"Item created"`
with the created item, and a subsequent `GET /api/items` returns the two
seed items followed by Widget, in that order. -/
theorem C3_seed_scenario :
    create_item_endpoint items_db (.str "Widget") (.int 5) =
      ([⟨"Item 1", 10⟩, ⟨"Item 2", 20⟩, ⟨"Widget", 5⟩],
       some ⟨"Item created", ⟨"Widget", 5⟩⟩) ∧
    get_items (create_item_endpoint items_db (.str "Widget") (.int 5)).1 =
      [⟨"Item 1", 10⟩, ⟨"Item 2", 20⟩, ⟨"Widget", 5⟩] := by decide

/-- C4: an input whose `value` field is not an integer fails validation
(no response is produced by the handler) and the store is unchanged. -/
theorem C4_nonint_value_rejected (db : List Item) (name value : Json)
    (h : value.isInt = false) :
    create_item_endpoint db name value = (db, none) := by
  cases value <;> cases name <;>
    simp_all [create_item_endpoint, parse_item, Json.isInt]

theorem C4_nonint_value_rejected_witness :
    (Json.str "5").isInt = false ∧
    create_item_endpoint items_db (.str "Widget") (.str "5") =
      (items_db, none) :=
  ⟨by decide, C4_nonint_value_rejected items_db (.str "Widget") (.str "5") (by decide)⟩

/-- C5 counterexample: the code has no non-emptiness constraint on
`name` — `{"name": "", "value": 1}` passes validation and the empty-named
item is appended to the store, refuting "no item with an empty name is
ever appended". -/
theorem C5_empty_name_accepted :
    create_item_endpoint items_db (.str "") (.int 1) =
      (items_db ++ [⟨"", 1⟩], some ⟨"Item created", ⟨"", 1⟩⟩) := by decide

/-- C5 amended: `create_item` imposes only the declared field types
(`name: str`, `value: int`); an item whose name is the empty string
passes validation and is appended to the store like any other. -/
theorem C5_empty_name_no_constraint (db : List Item) (v : Int) :
    create_item_endpoint db (.str "") (.int v) =
      (db ++ [⟨"", v⟩], some ⟨"Item created", ⟨"", v⟩⟩) := rfl

/-- C10: `create_item` only appends — every pre-existing entry is still
present at its index, unchanged, and the length grows by one. -/
theorem C10_create_item_frame (db : List Item) (i : Item) (j : Nat)
    (h : j < db.length) :
    ((create_item db i).1)[j]? = db[j]? ∧
    (create_item db i).1.length = db.length + 1 := by
  refine ⟨?_, by simp [create_item]⟩
  simp [create_item, List.getElem?_append_left h]

theorem C10_create_item_frame_witness :
    1 < items_db.length ∧
    ((create_item items_db ⟨"Widget", 5⟩).1)[1]? = items_db[1]? ∧
    (create_item items_db ⟨"Widget", 5⟩).1.length = items_db.length + 1 :=
  ⟨by decide, C10_create_item_frame items_db ⟨"Widget", 5⟩ 1 (by decide)⟩

/-- C7: every secret `generate_otp_secret` returns — whatever the random
oracle draws — is 32 base32-alphabet characters long, hence at least the
16 characters (80 bits) the spec requires. -/
theorem C7_generate_otp_secret_base32 (pick : Nat → Fin 32) :
    (generate_otp_secret pick).length = 32 ∧
    16 ≤ (generate_otp_secret pick).length ∧
    ∀ c ∈ (generate_otp_secret pick).toList, c ∈ base32Alphabet := by
  have hlen : (generate_otp_secret pick).length = 32 := by
    simp [generate_otp_secret, random_base32]
  refine ⟨hlen, by omega, ?_⟩
  intro c hc
  have hc2 : c ∈ (List.range 32).map
      (fun i => base32Alphabet.getD (pick i) 'A') := hc
  rw [List.mem_map] at hc2
  obtain ⟨i, -, rfl⟩ := hc2
  have h32 : ((pick i) : Nat) < base32Alphabet.length := (pick i).isLt
  rw [List.getD_eq_getElem _ _ h32]
  exact List.getElem_mem h32

/-- C8: `send_otp_email` reports success exactly when every step of the
SMTP session (connect, STARTTLS, login, message transmission, quit)
succeeded; any step's failure surfaces as an error to the caller, never
as silent success. -/
theorem C8_send_otp_email_no_swallow (server : SmtpSession) (email otp : String) :
    send_otp_email server email otp = Except.ok () ↔
      server.connect = Except.ok () ∧ server.starttls = Except.ok () ∧
      server.login "your_email@example.com" "your_password" = Except.ok () ∧
      server.send_message (otp_message email otp) = Except.ok () ∧
      server.quit = Except.ok () := by
  obtain ⟨c, st, lg, sm, q⟩ := server
  cases c <;> cases st <;>
    cases h1 : lg "your_email@example.com" "your_password" <;>
    cases h2 : sm (otp_message email otp) <;> cases q <;>
    simp_all [send_otp_email, Except.bind, Bind.bind]

/-- Helper: a code produced by `generate_otp` is six characters long and
in particular never the empty string. -/
theorem generate_otp_ne_empty (key : List Nat) (input : Nat) :
    "" ≠ generate_otp key input := by
  intro h
  have hlen : ("" : String).length = (generate_otp key input).length :=
    congrArg String.length h
  have h6 : (generate_otp key input).length = 6 := rfl
  rw [h6] at hlen
  exact absurd hlen (by decide)

/-- C6: for every well-formed secret, verifying an empty submitted code
returns the boolean `false`; with the secret decoding successfully, no
exception path remains, so the result is `some false`, never `none`. -/
theorem C6_verify_empty_token_false (s : String) (key : List Nat) (t : Nat)
    (h : byte_secret s = some key) :
    verify_otp s "" t = some false := by
  have hne := beq_eq_false_iff_ne.mpr (generate_otp_ne_empty key (timecode t))
  simp [verify_otp, h, strings_equal, hne]

theorem C6_verify_empty_token_false_witness :
    byte_secret sampleSecret = some sampleKey ∧
    verify_otp sampleSecret "" 0 = some false :=
  ⟨by decide, C6_verify_empty_token_false sampleSecret sampleKey 0 (by decide)⟩

/-- C1 counterexample: with secret `sampleSecret` at `t = 31195680`, the
current-step code is `"048087"`, and two 30-second steps later the same
code verifies again — `verifyCode(S, codeFor(S,t), t + stepSeconds*2)`
returns `true` there, where the claim says it always returns `false`. -/
theorem C1_two_steps_later_accepted :
    totp_at sampleSecret 31195680 = some "048087" ∧
    verify_otp sampleSecret "048087" (31195680 + 30 * 2) = some true := by
  decide

/-- C1 amended: for every well-formed secret, `verifyCode(S, codeFor(S,t),
t)` is true, and `verifyCode(S, codeFor(S,t), t + stepSeconds*2)` is true
iff the codes of steps `⌊t/30⌋` and `⌊t/30⌋ + 2` coincide — so it is
false whenever they differ, but not for every `S` and `t`.  (Only the
current window's counter is consulted: there is no adjacent-counter
tolerance.) -/
theorem C1_current_window_only (s : String) (key : List Nat) (t : Nat)
    (h : byte_secret s = some key) :
    verify_otp s (generate_otp key (timecode t)) t = some true ∧
    (verify_otp s (generate_otp key (timecode t)) (t + 30 * 2) = some true ↔
      generate_otp key (timecode t) = generate_otp key (timecode t + 2)) := by
  have hdiv : timecode (t + 30 * 2) = timecode t + 2 := by
    simp only [timecode]
    omega
  refine ⟨?_, ?_⟩ <;>
    simp [verify_otp, h, strings_equal, hdiv, beq_iff_eq]

theorem C1_current_window_only_witness :
    byte_secret sampleSecret = some sampleKey ∧
    (verify_otp sampleSecret (generate_otp sampleKey (timecode 0)) 0 = some true ∧
     (verify_otp sampleSecret (generate_otp sampleKey (timecode 0))
        (0 + 30 * 2) = some true ↔
       generate_otp sampleKey (timecode 0) =
         generate_otp sampleKey (timecode 0 + 2))) :=
  ⟨by decide, C1_current_window_only sampleSecret sampleKey 0 (by decide)⟩

end Portfolio
